import Mathlib

/-!
Shallow embedding of the query-side runtime facade
(`linera-sdk/src/service/runtime.rs`) and proofs about its memoization,
error handling and host-interaction behaviour.

Modelling conventions:
* Host interaction is explicit state passing over `HostEnv`, which pairs the
  host's externally owned state (`HostState`) with a `trace` recording every
  host-primitive invocation in order.  Each `base_wit`/`service_wit` function
  mirrors one WIT host import.
* Identifiers, heights, timestamps, amounts, owners and blob hashes are
  modelled as `Nat`; byte strings as `List Nat`.  The `From`/`Into`
  conversions of the source (`ChainId::from`, `Amount::from`, `with_abi`,
  `forget_abi`, ...) are pure representation changes and are identities here.
* A `Mutex<Option<T>>` cache slot is a `Cell T`: an optional value plus the
  mutex's `locked` flag.  The services built on this runtime are compiled for
  single-threaded wasm targets, where the standard library mutex is a plain
  boolean flag whose `lock` panics with "cannot recursively acquire mutex"
  when the lock is already held; that is the reentrancy behaviour modelled
  here.  Lock poisoning cannot occur (single thread, and a panic aborts the
  whole execution), so the poisoning `expect` in the source never fires.
* A Rust panic (from `expect`) is `Except.error (message, env)`, carrying the
  host environment as it is at the moment of the abort, so that theorems can
  state which host effects did or did not happen before a fatal condition.
* The external serializers (`serde_json`, `bcs`) are abstracted as explicit
  encode/decode function parameters, exactly where the source is generic over
  `Serialize`/`Deserialize` instances.
-/

/-- Raw bytes on the wire (`Vec<u8>`), modelled as a list of byte values. -/
abbrev Bytes := List Nat

/-- One invocation of a host primitive, as recorded in the host-call trace. -/
inductive HostCall where
  | applicationParameters : HostCall
  | getApplicationId : HostCall
  | getChainId : HostCall
  | getBlockHeight : HostCall
  | readSystemTimestamp : HostCall
  | readChainBalance : HostCall
  | readOwnerBalance (owner : Nat) : HostCall
  | readOwnerBalances : HostCall
  | readBalanceOwners : HostCall
  | performHttpRequest (request : Bytes) : HostCall
  | readDataBlob (hash : Nat) : HostCall
  | assertDataBlobExists (hash : Nat) : HostCall
  | scheduleOperation (bytes : Bytes) : HostCall
  | tryQueryApplication (app : Nat) (query : Bytes) : HostCall
  deriving DecidableEq, Repr

/-- The host's externally owned state, as visible through the primitives of
the host interface.  `operationQueue` is the host-owned append-only sequence
of scheduled operations. -/
structure HostState where
  applicationParametersBytes : Bytes
  applicationId : Nat
  chainId : Nat
  blockHeight : Nat
  systemTimestamp : Nat
  chainBalance : Nat
  ownerBalance : Nat → Nat
  ownerBalances : List (Nat × Nat)
  balanceOwners : List Nat
  httpResponse : Bytes → Bytes
  dataBlob : Nat → Bytes
  dataBlobExists : Nat → Bool
  queryResponse : Nat → Bytes → Bytes
  operationQueue : List Bytes

/-- The world outside the service: the host state plus the ordered trace of
host-primitive invocations made so far. -/
structure HostEnv where
  host : HostState
  trace : List HostCall

/-- Appends one call to the trace. -/
def HostEnv.record (env : HostEnv) (c : HostCall) : HostEnv :=
  { env with trace := env.trace ++ [c] }

/-- Host primitive `application_parameters`: returns the raw parameter bytes. -/
def base_wit.application_parameters (env : HostEnv) : Bytes × HostEnv :=
  (env.host.applicationParametersBytes, env.record .applicationParameters)

/-- Host primitive `get_application_id`. -/
def base_wit.get_application_id (env : HostEnv) : Nat × HostEnv :=
  (env.host.applicationId, env.record .getApplicationId)

/-- Host primitive `get_chain_id`. -/
def base_wit.get_chain_id (env : HostEnv) : Nat × HostEnv :=
  (env.host.chainId, env.record .getChainId)

/-- Host primitive `get_block_height`. -/
def base_wit.get_block_height (env : HostEnv) : Nat × HostEnv :=
  (env.host.blockHeight, env.record .getBlockHeight)

/-- Host primitive `read_system_timestamp`. -/
def base_wit.read_system_timestamp (env : HostEnv) : Nat × HostEnv :=
  (env.host.systemTimestamp, env.record .readSystemTimestamp)

/-- Host primitive `read_chain_balance`. -/
def base_wit.read_chain_balance (env : HostEnv) : Nat × HostEnv :=
  (env.host.chainBalance, env.record .readChainBalance)

/-- Host primitive `read_owner_balance`. -/
def base_wit.read_owner_balance (owner : Nat) (env : HostEnv) : Nat × HostEnv :=
  (env.host.ownerBalance owner, env.record (.readOwnerBalance owner))

/-- Host primitive `read_owner_balances`. -/
def base_wit.read_owner_balances (env : HostEnv) : List (Nat × Nat) × HostEnv :=
  (env.host.ownerBalances, env.record .readOwnerBalances)

/-- Host primitive `read_balance_owners`. -/
def base_wit.read_balance_owners (env : HostEnv) : List Nat × HostEnv :=
  (env.host.balanceOwners, env.record .readBalanceOwners)

/-- Host primitive `perform_http_request`. -/
def base_wit.perform_http_request (request : Bytes) (env : HostEnv) : Bytes × HostEnv :=
  (env.host.httpResponse request, env.record (.performHttpRequest request))

/-- Host primitive `read_data_blob`. -/
def base_wit.read_data_blob (hash : Nat) (env : HostEnv) : Bytes × HostEnv :=
  (env.host.dataBlob hash, env.record (.readDataBlob hash))

/-- Host primitive `assert_data_blob_exists`.  Modelled from the spec: the
host side of this primitive is not under src/; per the external-interface
contract it returns unit when the blob exists and aborts the execution when
it does not. -/
def base_wit.assert_data_blob_exists (hash : Nat) (env : HostEnv) :
    Except (String × HostEnv) (Unit × HostEnv) :=
  if env.host.dataBlobExists hash then
    Except.ok ((), env.record (.assertDataBlobExists hash))
  else
    Except.error ("Data blob does not exist", env.record (.assertDataBlobExists hash))

/-- Host primitive `schedule_operation`: appends the bytes to the host-owned
operation queue. -/
def service_wit.schedule_operation (bytes : Bytes) (env : HostEnv) : Unit × HostEnv :=
  ((),
    { host := { env.host with operationQueue := env.host.operationQueue ++ [bytes] }
      trace := env.trace ++ [.scheduleOperation bytes] })

/-- Host primitive `try_query_application`: dispatches the query bytes to the
target application and returns its response bytes. -/
def service_wit.try_query_application (app : Nat) (query : Bytes) (env : HostEnv) :
    Bytes × HostEnv :=
  (env.host.queryResponse app query, env.record (.tryQueryApplication app query))

/-- A `Mutex<Option<T>>` cache slot (a Memoizing Cell): the optional cached
value together with the mutex's lock flag.  The flag is `true` exactly while
`fetch_value_through_cache` holds the guard. -/
structure Cell (T : Type) where
  locked : Bool
  value : Option T
  deriving DecidableEq, Repr

/-- An empty, unlocked cell, as created by `ServiceRuntime::new`. -/
def Cell.new {T : Type} : Cell T := ⟨false, none⟩

/-- `fetch_value_through_cache`: takes the slot's lock, populates the slot by
running `fetch` if it is empty, and returns a clone of the cached value,
releasing the lock.  On the single-threaded targets the services run on,
taking an already-held lock panics with "cannot recursively acquire mutex";
`fetch` receives the cell in its locked state (which is what a reentrant call
made from inside `fetch` would observe) and may itself perform host calls or
panic. -/
def fetch_value_through_cache {T S : Type} (slot : Cell T)
    (fetch : Cell T → S → Except (String × S) (T × S)) (s : S) :
    Except (String × S) (T × Cell T × S) :=
  if slot.locked then
    Except.error ("cannot recursively acquire mutex", s)
  else
    match slot.value with
    | some v => Except.ok (v, Cell.mk false (some v), s)
    | none =>
      match fetch (Cell.mk true none) s with
      | .error e => .error e
      | .ok (v, s) => Except.ok (v, Cell.mk false (some v), s)

/-- The runtime available during execution of a query: one Memoizing Cell per
cacheable fact.  `P` is `Application::Parameters`. -/
structure ServiceRuntime (P : Type) where
  application_parameters_cell : Cell P
  application_id_cell : Cell Nat
  chain_id_cell : Cell Nat
  next_block_height_cell : Cell Nat
  timestamp_cell : Cell Nat
  chain_balance_cell : Cell Nat
  owner_balances_cell : Cell (List (Nat × Nat))
  balance_owners_cell : Cell (List Nat)

/-- `ServiceRuntime::new`: all cells start empty. -/
def ServiceRuntime.new (P : Type) : ServiceRuntime P :=
  ⟨.new, .new, .new, .new, .new, .new, .new, .new⟩

/-- The result of one facade call: either a fatal abort (message plus the
host environment at the moment of the abort), or the returned value together
with the updated runtime and host environment. -/
abbrev FacadeResult (P α : Type) := Except (String × HostEnv) (α × ServiceRuntime P × HostEnv)

/-- `application_parameters`: cached; fetches the raw bytes and deserializes
them (serde_json, abstracted as `jsonDeser`); a deserialization failure is a
fatal condition. -/
def ServiceRuntime.application_parameters {P : Type} (jsonDeser : Bytes → Option P)
    (rt : ServiceRuntime P) (env : HostEnv) : FacadeResult P P :=
  match fetch_value_through_cache rt.application_parameters_cell
      (fun _slot env =>
        let (bytes, env) := base_wit.application_parameters env
        match jsonDeser bytes with
        | some v => Except.ok (v, env)
        | none => Except.error ("Application parameters must be deserializable", env))
      env with
  | .error e => .error e
  | .ok (v, cell, env) => .ok (v, { rt with application_parameters_cell := cell }, env)

/-- `application_id`: cached; the `with_abi` tagging is an identity here. -/
def ServiceRuntime.application_id {P : Type} (rt : ServiceRuntime P) (env : HostEnv) :
    FacadeResult P Nat :=
  match fetch_value_through_cache rt.application_id_cell
      (fun _slot env =>
        let (v, env) := base_wit.get_application_id env
        Except.ok (v, env))
      env with
  | .error e => .error e
  | .ok (v, cell, env) => .ok (v, { rt with application_id_cell := cell }, env)

/-- `chain_id`: cached. -/
def ServiceRuntime.chain_id {P : Type} (rt : ServiceRuntime P) (env : HostEnv) :
    FacadeResult P Nat :=
  match fetch_value_through_cache rt.chain_id_cell
      (fun _slot env =>
        let (v, env) := base_wit.get_chain_id env
        Except.ok (v, env))
      env with
  | .error e => .error e
  | .ok (v, cell, env) => .ok (v, { rt with chain_id_cell := cell }, env)

/-- `next_block_height`: cached. -/
def ServiceRuntime.next_block_height {P : Type} (rt : ServiceRuntime P) (env : HostEnv) :
    FacadeResult P Nat :=
  match fetch_value_through_cache rt.next_block_height_cell
      (fun _slot env =>
        let (v, env) := base_wit.get_block_height env
        Except.ok (v, env))
      env with
  | .error e => .error e
  | .ok (v, cell, env) => .ok (v, { rt with next_block_height_cell := cell }, env)

/-- `system_time`: cached (in the `timestamp` cell). -/
def ServiceRuntime.system_time {P : Type} (rt : ServiceRuntime P) (env : HostEnv) :
    FacadeResult P Nat :=
  match fetch_value_through_cache rt.timestamp_cell
      (fun _slot env =>
        let (v, env) := base_wit.read_system_timestamp env
        Except.ok (v, env))
      env with
  | .error e => .error e
  | .ok (v, cell, env) => .ok (v, { rt with timestamp_cell := cell }, env)

/-- `chain_balance`: cached. -/
def ServiceRuntime.chain_balance {P : Type} (rt : ServiceRuntime P) (env : HostEnv) :
    FacadeResult P Nat :=
  match fetch_value_through_cache rt.chain_balance_cell
      (fun _slot env =>
        let (v, env) := base_wit.read_chain_balance env
        Except.ok (v, env))
      env with
  | .error e => .error e
  | .ok (v, cell, env) => .ok (v, { rt with chain_balance_cell := cell }, env)

/-- `owner_balances`: cached; the per-entry `into` conversions are
identities here. -/
def ServiceRuntime.owner_balances {P : Type} (rt : ServiceRuntime P) (env : HostEnv) :
    FacadeResult P (List (Nat × Nat)) :=
  match fetch_value_through_cache rt.owner_balances_cell
      (fun _slot env =>
        let (v, env) := base_wit.read_owner_balances env
        Except.ok (v, env))
      env with
  | .error e => .error e
  | .ok (v, cell, env) => .ok (v, { rt with owner_balances_cell := cell }, env)

/-- `balance_owners`: cached. -/
def ServiceRuntime.balance_owners {P : Type} (rt : ServiceRuntime P) (env : HostEnv) :
    FacadeResult P (List Nat) :=
  match fetch_value_through_cache rt.balance_owners_cell
      (fun _slot env =>
        let (v, env) := base_wit.read_balance_owners env
        Except.ok (v, env))
      env with
  | .error e => .error e
  | .ok (v, cell, env) => .ok (v, { rt with balance_owners_cell := cell }, env)

/-- `owner_balance`: NOT cached; a direct host round-trip on every call. -/
def ServiceRuntime.owner_balance {P : Type} (owner : Nat)
    (rt : ServiceRuntime P) (env : HostEnv) : FacadeResult P Nat :=
  let (v, env) := base_wit.read_owner_balance owner env
  .ok (v, rt, env)

/-- `http_request`: not cached; a direct host round-trip on every call. -/
def ServiceRuntime.http_request {P : Type} (request : Bytes)
    (rt : ServiceRuntime P) (env : HostEnv) : FacadeResult P Bytes :=
  let (v, env) := base_wit.perform_http_request request env
  .ok (v, rt, env)

/-- `read_data_blob`: not cached; a direct host round-trip on every call. -/
def ServiceRuntime.read_data_blob {P : Type} (hash : Nat)
    (rt : ServiceRuntime P) (env : HostEnv) : FacadeResult P Bytes :=
  let (v, env) := base_wit.read_data_blob hash env
  .ok (v, rt, env)

/-- `assert_data_blob_exists`: forwards to the host primitive, which
completes silently when the blob exists and aborts when it does not. -/
def ServiceRuntime.assert_data_blob_exists {P : Type} (hash : Nat)
    (rt : ServiceRuntime P) (env : HostEnv) : FacadeResult P Unit :=
  match base_wit.assert_data_blob_exists hash env with
  | .error e => .error e
  | .ok ((), env) => .ok ((), rt, env)

/-- `schedule_raw_operation`: forwards the opaque bytes to the host. -/
def ServiceRuntime.schedule_raw_operation {P : Type} (operation : Bytes)
    (rt : ServiceRuntime P) (env : HostEnv) : FacadeResult P Unit :=
  let ((), env) := service_wit.schedule_operation operation env
  .ok ((), rt, env)

/-- `schedule_operation`: serializes the operation with BCS (abstracted as
`bcsSer`) and forwards the bytes; a serialization failure is a fatal
condition raised before anything reaches the host. -/
def ServiceRuntime.schedule_operation {P Op : Type} (bcsSer : Op → Option Bytes)
    (operation : Op) (rt : ServiceRuntime P) (env : HostEnv) : FacadeResult P Unit :=
  match bcsSer operation with
  | none => .error ("Failed to serialize application operation", env)
  | some bytes =>
    let ((), env) := service_wit.schedule_operation bytes env
    .ok ((), rt, env)

/-- `query_application`: serializes the query (serde_json, abstracted as
`serQuery`), dispatches it to the target application, and deserializes the
response bytes as the target ABI's response type (abstracted as
`deserResponse`); either serialization or deserialization failure is a fatal
condition. -/
def ServiceRuntime.query_application {P Q R : Type}
    (serQuery : Q → Option Bytes) (deserResponse : Bytes → Option R)
    (application : Nat) (query : Q)
    (rt : ServiceRuntime P) (env : HostEnv) : FacadeResult P R :=
  match serQuery query with
  | none => .error ("Failed to serialize query to another application", env)
  | some query_bytes =>
    let (response_bytes, env) := service_wit.try_query_application application query_bytes env
    match deserResponse response_bytes with
    | some r => .ok (r, rt, env)
    | none => .error ("Failed to deserialize query response from application", env)

/-- Modelled from the spec: `KeyValueStore` (not under src/) is the
capability handle to the service key-value store; `for_services` is its pure
constructor. -/
inductive KeyValueStore where
  | forServicesHandle : KeyValueStore
  deriving DecidableEq, Repr

/-- Modelled from the spec: `KeyValueStore::for_services`, a pure
construction with no host round-trip. -/
def KeyValueStore.for_services : KeyValueStore := .forServicesHandle

/-- Modelled from the spec: `ViewStorageContext` (not under src/) is a
storage capability handle holding a store, a base key (the root path), and
extra context data. -/
structure ViewStorageContext where
  store : KeyValueStore
  base_key : Bytes
  extra : Unit
  deriving DecidableEq, Repr

/-- Modelled from the spec: the `ViewStorageContext` constructor used by the
facade (named `new_unsafe` in the source), a pure construction. -/
def ViewStorageContext.newUnsafe (store : KeyValueStore) (base_key : Bytes)
    (extra : Unit) : ViewStorageContext :=
  ⟨store, base_key, extra⟩

/-- `key_value_store`: pure construction, ignores the runtime. -/
def ServiceRuntime.key_value_store {P : Type} (_rt : ServiceRuntime P) : KeyValueStore :=
  KeyValueStore.for_services

/-- `root_view_storage_context`: builds the storage context over the empty
base key; a pure construction with no host interaction. -/
def ServiceRuntime.root_view_storage_context {P : Type}
    (rt : ServiceRuntime P) (env : HostEnv) : FacadeResult P ViewStorageContext :=
  .ok (ViewStorageContext.newUnsafe rt.key_value_store [] (), rt, env)

/-- A concrete host state used by witness theorems. -/
def host0 : HostState where
  applicationParametersBytes := [7]
  applicationId := 11
  chainId := 12
  blockHeight := 13
  systemTimestamp := 14
  chainBalance := 15
  ownerBalance := fun owner => owner + 100
  ownerBalances := [(1, 101), (2, 102)]
  balanceOwners := [1, 2]
  httpResponse := fun request => 0 :: request
  dataBlob := fun _ => [1, 2, 3]
  dataBlobExists := fun hash => hash % 2 == 0
  queryResponse := fun app query => app :: query
  operationQueue := []

/-- A concrete host environment (empty trace) used by witness theorems. -/
def env0 : HostEnv := ⟨host0, []⟩

/-- A concrete deserializer (first byte) used by witness theorems. -/
def deser0 : Bytes → Option Nat := fun b => b.head?

/-- A concrete serializer (single byte) used by witness theorems. -/
def ser0 : Nat → Option Bytes := fun n => some [n]

/-- C1: every cacheable fact method, called on a fresh `ServiceRuntime`,
invokes its host primitive exactly once (one new trace entry), stores the
result in its Memoizing Cell, and returns it; a second call on the resulting
runtime — under an arbitrary later host environment `env2`, so even if the
host's underlying state has changed — returns the exact first-populated
value, makes no host call (the trace of `env2` is unchanged), and leaves the
runtime unchanged. -/
theorem claim_c1_cacheable_facts_memoized :
    (∀ (P : Type) (jd : Bytes → Option P) (env : HostEnv) (p : P),
      jd env.host.applicationParametersBytes = some p →
      ServiceRuntime.application_parameters jd (ServiceRuntime.new P) env =
        .ok (p,
          { ServiceRuntime.new P with application_parameters_cell := ⟨false, some p⟩ },
          env.record .applicationParameters) ∧
      ∀ env2 : HostEnv,
        ServiceRuntime.application_parameters jd
            { ServiceRuntime.new P with application_parameters_cell := ⟨false, some p⟩ }
            env2 =
          .ok (p,
            { ServiceRuntime.new P with application_parameters_cell := ⟨false, some p⟩ },
            env2)) ∧
    (∀ (P : Type) (env : HostEnv),
      ServiceRuntime.application_id (ServiceRuntime.new P) env =
        .ok (env.host.applicationId,
          { ServiceRuntime.new P with application_id_cell := ⟨false, some env.host.applicationId⟩ },
          env.record .getApplicationId) ∧
      ∀ env2 : HostEnv,
        ServiceRuntime.application_id
            { ServiceRuntime.new P with application_id_cell := ⟨false, some env.host.applicationId⟩ }
            env2 =
          .ok (env.host.applicationId,
            { ServiceRuntime.new P with application_id_cell := ⟨false, some env.host.applicationId⟩ },
            env2)) ∧
    (∀ (P : Type) (env : HostEnv),
      ServiceRuntime.chain_id (ServiceRuntime.new P) env =
        .ok (env.host.chainId,
          { ServiceRuntime.new P with chain_id_cell := ⟨false, some env.host.chainId⟩ },
          env.record .getChainId) ∧
      ∀ env2 : HostEnv,
        ServiceRuntime.chain_id
            { ServiceRuntime.new P with chain_id_cell := ⟨false, some env.host.chainId⟩ } env2 =
          .ok (env.host.chainId,
            { ServiceRuntime.new P with chain_id_cell := ⟨false, some env.host.chainId⟩ },
            env2)) ∧
    (∀ (P : Type) (env : HostEnv),
      ServiceRuntime.next_block_height (ServiceRuntime.new P) env =
        .ok (env.host.blockHeight,
          { ServiceRuntime.new P with next_block_height_cell := ⟨false, some env.host.blockHeight⟩ },
          env.record .getBlockHeight) ∧
      ∀ env2 : HostEnv,
        ServiceRuntime.next_block_height
            { ServiceRuntime.new P with next_block_height_cell := ⟨false, some env.host.blockHeight⟩ }
            env2 =
          .ok (env.host.blockHeight,
            { ServiceRuntime.new P with next_block_height_cell := ⟨false, some env.host.blockHeight⟩ },
            env2)) ∧
    (∀ (P : Type) (env : HostEnv),
      ServiceRuntime.system_time (ServiceRuntime.new P) env =
        .ok (env.host.systemTimestamp,
          { ServiceRuntime.new P with timestamp_cell := ⟨false, some env.host.systemTimestamp⟩ },
          env.record .readSystemTimestamp) ∧
      ∀ env2 : HostEnv,
        ServiceRuntime.system_time
            { ServiceRuntime.new P with timestamp_cell := ⟨false, some env.host.systemTimestamp⟩ }
            env2 =
          .ok (env.host.systemTimestamp,
            { ServiceRuntime.new P with timestamp_cell := ⟨false, some env.host.systemTimestamp⟩ },
            env2)) ∧
    (∀ (P : Type) (env : HostEnv),
      ServiceRuntime.chain_balance (ServiceRuntime.new P) env =
        .ok (env.host.chainBalance,
          { ServiceRuntime.new P with chain_balance_cell := ⟨false, some env.host.chainBalance⟩ },
          env.record .readChainBalance) ∧
      ∀ env2 : HostEnv,
        ServiceRuntime.chain_balance
            { ServiceRuntime.new P with chain_balance_cell := ⟨false, some env.host.chainBalance⟩ }
            env2 =
          .ok (env.host.chainBalance,
            { ServiceRuntime.new P with chain_balance_cell := ⟨false, some env.host.chainBalance⟩ },
            env2)) ∧
    (∀ (P : Type) (env : HostEnv),
      ServiceRuntime.owner_balances (ServiceRuntime.new P) env =
        .ok (env.host.ownerBalances,
          { ServiceRuntime.new P with owner_balances_cell := ⟨false, some env.host.ownerBalances⟩ },
          env.record .readOwnerBalances) ∧
      ∀ env2 : HostEnv,
        ServiceRuntime.owner_balances
            { ServiceRuntime.new P with owner_balances_cell := ⟨false, some env.host.ownerBalances⟩ }
            env2 =
          .ok (env.host.ownerBalances,
            { ServiceRuntime.new P with owner_balances_cell := ⟨false, some env.host.ownerBalances⟩ },
            env2)) ∧
    (∀ (P : Type) (env : HostEnv),
      ServiceRuntime.balance_owners (ServiceRuntime.new P) env =
        .ok (env.host.balanceOwners,
          { ServiceRuntime.new P with balance_owners_cell := ⟨false, some env.host.balanceOwners⟩ },
          env.record .readBalanceOwners) ∧
      ∀ env2 : HostEnv,
        ServiceRuntime.balance_owners
            { ServiceRuntime.new P with balance_owners_cell := ⟨false, some env.host.balanceOwners⟩ }
            env2 =
          .ok (env.host.balanceOwners,
            { ServiceRuntime.new P with balance_owners_cell := ⟨false, some env.host.balanceOwners⟩ },
            env2)) := by
  refine ⟨?_, ?_, ?_, ?_, ?_, ?_, ?_, ?_⟩
  · intro P jd env p h
    refine ⟨?_, fun env2 => rfl⟩
    simp [ServiceRuntime.application_parameters, fetch_value_through_cache,
      base_wit.application_parameters, ServiceRuntime.new, Cell.new, HostEnv.record, h]
  · exact fun P env => ⟨rfl, fun env2 => rfl⟩
  · exact fun P env => ⟨rfl, fun env2 => rfl⟩
  · exact fun P env => ⟨rfl, fun env2 => rfl⟩
  · exact fun P env => ⟨rfl, fun env2 => rfl⟩
  · exact fun P env => ⟨rfl, fun env2 => rfl⟩
  · exact fun P env => ⟨rfl, fun env2 => rfl⟩
  · exact fun P env => ⟨rfl, fun env2 => rfl⟩

/-- Witness for C1 at a concrete input: the deserializer succeeds on the
concrete host's parameter bytes, and the first call populates the cell with
the decoded value `7` while recording exactly one host call. -/
theorem claim_c1_cacheable_facts_memoized_witness :
    deser0 env0.host.applicationParametersBytes = some 7 ∧
    ServiceRuntime.application_parameters deser0 (ServiceRuntime.new Nat) env0 =
      .ok (7,
        { ServiceRuntime.new Nat with application_parameters_cell := ⟨false, some 7⟩ },
        env0.record .applicationParameters) :=
  ⟨rfl, (claim_c1_cacheable_facts_memoized.1 Nat deser0 env0 7 rfl).1⟩

/-- C2: reentrant population of a Memoizing Cell is detected and reported as
a fatal condition instead of blocking forever.  First part: any call to
`fetch_value_through_cache` on a cell whose lock is held — which is exactly
the state a fetch closure observes for its own cell — aborts with the
single-threaded mutex panic message.  Second part, the concrete reentrant
scenario: a fetch closure that re-enters the same cell's population routine
makes the whole outer call abort with that message, for every inner fetch
and every starting environment. -/
theorem claim_c2_reentrant_population_fatal :
    (∀ (T S : Type) (c : Cell T) (fetch : Cell T → S → Except (String × S) (T × S)) (s : S),
      c.locked = true →
      fetch_value_through_cache c fetch s =
        .error ("cannot recursively acquire mutex", s)) ∧
    (∀ (T S : Type) (inner : Cell T → S → Except (String × S) (T × S)) (s : S),
      fetch_value_through_cache (Cell.new : Cell T)
        (fun c s =>
          match fetch_value_through_cache c inner s with
          | .error e => .error e
          | .ok (v, _, s) => .ok (v, s)) s =
        .error ("cannot recursively acquire mutex", s)) := by
  constructor
  · intro T S c fetch s h
    simp [fetch_value_through_cache, h]
  · intro T S inner s
    rfl

/-- Witness for C2: a concretely locked cell makes population abort at once. -/
theorem claim_c2_reentrant_population_fatal_witness :
    (Cell.mk true none : Cell Nat).locked = true ∧
    fetch_value_through_cache (Cell.mk true none : Cell Nat)
        (fun _ env => Except.ok (0, env)) env0 =
      .error ("cannot recursively acquire mutex", env0) :=
  ⟨rfl,
    claim_c2_reentrant_population_fatal.1 Nat HostEnv (Cell.mk true none)
      (fun _ env => Except.ok (0, env)) env0 rfl⟩

/-- C3: once the query has been serialized, `query_application` dispatches it
and then: if the host's response bytes do not decode as the target ABI's
response type, it aborts with a fatal condition (returning no value); if they
do decode, it returns the decoded typed response.  In both branches exactly
one dispatch to the host happened. -/
theorem claim_c3_query_application_decode_or_abort :
    ∀ (P Q R : Type) (serQuery : Q → Option Bytes) (deserResponse : Bytes → Option R)
      (application : Nat) (query : Q) (rt : ServiceRuntime P) (env : HostEnv)
      (query_bytes : Bytes),
      serQuery query = some query_bytes →
      (deserResponse (env.host.queryResponse application query_bytes) = none →
        ServiceRuntime.query_application serQuery deserResponse application query rt env =
          .error ("Failed to deserialize query response from application",
            env.record (.tryQueryApplication application query_bytes))) ∧
      (∀ r : R,
        deserResponse (env.host.queryResponse application query_bytes) = some r →
        ServiceRuntime.query_application serQuery deserResponse application query rt env =
          .ok (r, rt, env.record (.tryQueryApplication application query_bytes))) := by
  intro P Q R serQuery deserResponse application query rt env query_bytes hser
  constructor
  · intro hdeser
    simp [ServiceRuntime.query_application, service_wit.try_query_application,
      hser, hdeser]
  · intro r hdeser
    simp [ServiceRuntime.query_application, service_wit.try_query_application,
      hser, hdeser]

/-- Witness for C3 at concrete inputs, covering both the undecodable-response
(fatal) branch and the decodable-response (typed return) branch. -/
theorem claim_c3_query_application_decode_or_abort_witness :
    ser0 3 = some [3] ∧
    ((fun _ : Bytes => (none : Option Nat)) (env0.host.queryResponse 5 [3]) = none ∧
      ServiceRuntime.query_application ser0 (fun _ : Bytes => (none : Option Nat)) 5 3
          (ServiceRuntime.new Nat) env0 =
        .error ("Failed to deserialize query response from application",
          env0.record (.tryQueryApplication 5 [3]))) ∧
    (deser0 (env0.host.queryResponse 5 [3]) = some 5 ∧
      ServiceRuntime.query_application ser0 deser0 5 3 (ServiceRuntime.new Nat) env0 =
        .ok (5, ServiceRuntime.new Nat, env0.record (.tryQueryApplication 5 [3]))) :=
  ⟨rfl,
    ⟨rfl,
      (claim_c3_query_application_decode_or_abort Nat Nat Nat ser0
        (fun _ => none) 5 3 (ServiceRuntime.new Nat) env0 [3] rfl).1 rfl⟩,
    ⟨rfl,
      (claim_c3_query_application_decode_or_abort Nat Nat Nat ser0
        deser0 5 3 (ServiceRuntime.new Nat) env0 [3] rfl).2 5 rfl⟩⟩

/-- Scheduling N typed operations in sequence: iterates `schedule_operation`
in call order. -/
def ServiceRuntime.schedule_operations {P Op : Type} (bcsSer : Op → Option Bytes) :
    List Op → ServiceRuntime P → HostEnv → FacadeResult P Unit
  | [], rt, env => .ok ((), rt, env)
  | op :: rest, rt, env =>
    match ServiceRuntime.schedule_operation bcsSer op rt env with
    | .error e => .error e
    | .ok ((), rt, env) => ServiceRuntime.schedule_operations bcsSer rest rt env

/-- Encodes every element of a list, failing if any element fails. -/
def encodeAll {Op : Type} (ser : Op → Option Bytes) : List Op → Option (List Bytes)
  | [] => some []
  | op :: rest =>
    match ser op, encodeAll ser rest with
    | some b, some bs => some (b :: bs)
    | _, _ => none

/-- Decodes every element of a list, failing if any element fails. -/
def decodeAll {Op : Type} (deser : Bytes → Option Op) : List Bytes → Option (List Op)
  | [] => some []
  | b :: rest =>
    match deser b, decodeAll deser rest with
    | some op, some ops => some (op :: ops)
    | _, _ => none

/-- C4: when the canonical encoder inverts to the decoder (the BCS round-trip
law) and every operation in `ops` encodes (to `bs`), scheduling the
operations in sequence forwards exactly those encoded bytes to the host's
operation queue in call order — the queue grows by `bs` and the trace by the
matching `scheduleOperation` calls in the same order — and decoding the
forwarded bytes recovers the original operations. -/
theorem claim_c4_schedule_operation_roundtrip_and_order :
    ∀ (P Op : Type) (ser : Op → Option Bytes) (deser : Bytes → Option Op),
      (∀ (op : Op) (b : Bytes), ser op = some b → deser b = some op) →
      ∀ (ops : List Op) (bs : List Bytes) (rt : ServiceRuntime P) (env : HostEnv),
        encodeAll ser ops = some bs →
        ServiceRuntime.schedule_operations ser ops rt env =
          .ok ((), rt,
            ⟨{ env.host with operationQueue := env.host.operationQueue ++ bs },
              env.trace ++ bs.map HostCall.scheduleOperation⟩) ∧
        decodeAll deser bs = some ops := by
  intro P Op ser deser hroundtrip ops
  induction ops with
  | nil =>
    intro bs rt env henc
    simp only [encodeAll, Option.some.injEq] at henc
    subst henc
    simp [ServiceRuntime.schedule_operations, decodeAll]
  | cons op rest ih =>
    intro bs rt env henc
    cases hop : ser op with
    | none => simp [encodeAll, hop] at henc
    | some b =>
      cases hrest : encodeAll ser rest with
      | none => simp [encodeAll, hop, hrest] at henc
      | some bsrest =>
        simp only [encodeAll, hop, hrest, Option.some.injEq] at henc
        subst henc
        have step :
            ServiceRuntime.schedule_operation ser op rt env =
              .ok ((), rt,
                ⟨{ env.host with operationQueue := env.host.operationQueue ++ [b] },
                  env.trace ++ [HostCall.scheduleOperation b]⟩) := by
          simp [ServiceRuntime.schedule_operation, service_wit.schedule_operation, hop]
        have tail :=
          ih bsrest rt
            ⟨{ env.host with operationQueue := env.host.operationQueue ++ [b] },
              env.trace ++ [HostCall.scheduleOperation b]⟩ hrest
        constructor
        · calc ServiceRuntime.schedule_operations ser (op :: rest) rt env
              = ServiceRuntime.schedule_operations ser rest rt
                  ⟨{ env.host with operationQueue := env.host.operationQueue ++ [b] },
                    env.trace ++ [HostCall.scheduleOperation b]⟩ := by
                simp [ServiceRuntime.schedule_operations, step]
            _ = .ok ((), rt,
                  ⟨{ env.host with
                      operationQueue := env.host.operationQueue ++ b :: bsrest },
                    env.trace ++ (b :: bsrest).map HostCall.scheduleOperation⟩) := by
                rw [tail.1]
                simp [List.append_assoc]
        · simp [decodeAll, hroundtrip op b hop, tail.2]

/-- Witness for C4: concrete serializer and decoder, two operations. -/
theorem claim_c4_schedule_operation_roundtrip_and_order_witness :
    (∀ (op : Nat) (b : Bytes), ser0 op = some b → deser0 b = some op) ∧
    encodeAll ser0 [1, 2] = some [[1], [2]] ∧
    (ServiceRuntime.schedule_operations ser0 [1, 2] (ServiceRuntime.new Nat) env0 =
      .ok ((), ServiceRuntime.new Nat,
        ⟨{ env0.host with operationQueue := env0.host.operationQueue ++ [[1], [2]] },
          env0.trace ++ [[1], [2]].map HostCall.scheduleOperation⟩) ∧
    decodeAll deser0 [[1], [2]] = some [1, 2]) :=
  ⟨fun op b h => by
      simp only [ser0, Option.some.injEq] at h
      subst h
      rfl,
    rfl,
    claim_c4_schedule_operation_roundtrip_and_order Nat Nat ser0 deser0
      (fun op b h => by
        simp only [ser0, Option.some.injEq] at h
        subst h
        rfl)
      [1, 2] [[1], [2]] (ServiceRuntime.new Nat) env0 rfl⟩

/-- C5: `owner_balance` is not memoized.  Every call — here, two sequential
calls with the same owner on the same runtime — issues exactly one fresh host
round-trip (one new `readOwnerBalance` trace entry per call) and returns
exactly the host's reply; the runtime (all cells) is untouched. -/
theorem claim_c5_owner_balance_not_memoized :
    ∀ (P : Type) (rt : ServiceRuntime P) (env : HostEnv) (owner : Nat),
      ServiceRuntime.owner_balance owner rt env =
        .ok (env.host.ownerBalance owner, rt, env.record (.readOwnerBalance owner)) ∧
      ServiceRuntime.owner_balance owner rt (env.record (.readOwnerBalance owner)) =
        .ok (env.host.ownerBalance owner, rt,
          { env with
            trace := env.trace ++ [.readOwnerBalance owner, .readOwnerBalance owner] }) := by
  intro P rt env owner
  constructor
  · rfl
  · simp [ServiceRuntime.owner_balance, base_wit.read_owner_balance, HostEnv.record]

/-- C6: when the canonical binary encoding of the operation fails,
`schedule_operation` aborts with a fatal condition; the error carries the
host environment exactly as it was at the call, so the operation was neither
forwarded (the operation queue is unchanged), nor mangled, nor retried. -/
theorem claim_c6_encode_failure_fatal :
    ∀ (P Op : Type) (ser : Op → Option Bytes) (op : Op)
      (rt : ServiceRuntime P) (env : HostEnv),
      ser op = none →
      ServiceRuntime.schedule_operation ser op rt env =
        .error ("Failed to serialize application operation", env) := by
  intro P Op ser op rt env h
  simp [ServiceRuntime.schedule_operation, h]

/-- Witness for C6: a concretely failing serializer aborts the call. -/
theorem claim_c6_encode_failure_fatal_witness :
    (fun _ : Nat => (none : Option Bytes)) 0 = none ∧
    ServiceRuntime.schedule_operation (fun _ : Nat => (none : Option Bytes)) 0
        (ServiceRuntime.new Nat) env0 =
      .error ("Failed to serialize application operation", env0) :=
  ⟨rfl,
    claim_c6_encode_failure_fatal Nat Nat (fun _ => none) 0
      (ServiceRuntime.new Nat) env0 rfl⟩

/-- C7: `assert_data_blob_exists` completes silently — returning unit, with
the runtime untouched and only the assertion call added to the trace — when
the host reports the blob present, and aborts with a fatal condition when the
host reports it absent. -/
theorem claim_c7_assert_data_blob_exists_silent_or_fatal :
    ∀ (P : Type) (hash : Nat) (rt : ServiceRuntime P) (env : HostEnv),
      ServiceRuntime.assert_data_blob_exists hash rt env =
        if env.host.dataBlobExists hash then
          .ok ((), rt, env.record (.assertDataBlobExists hash))
        else
          .error ("Data blob does not exist", env.record (.assertDataBlobExists hash)) := by
  intro P hash rt env
  cases h : env.host.dataBlobExists hash <;>
    simp [ServiceRuntime.assert_data_blob_exists, base_wit.assert_data_blob_exists, h]

/-- C8: `root_view_storage_context` always returns the storage handle built
over the canonical empty root path (empty base key), touching neither the
host environment (no round-trip, no trace entry) nor any Memoizing Cell, and
every call on any runtime returns the identical handle. -/
theorem claim_c8_root_view_storage_context_pure :
    ∀ (P : Type) (rt : ServiceRuntime P) (env : HostEnv),
      ServiceRuntime.root_view_storage_context rt env =
        .ok (ViewStorageContext.newUnsafe KeyValueStore.for_services [] (), rt, env) ∧
      (ViewStorageContext.newUnsafe KeyValueStore.for_services [] ()).base_key = [] ∧
      ∀ (P2 : Type) (rt2 : ServiceRuntime P2) (env2 : HostEnv),
        ServiceRuntime.root_view_storage_context rt2 env2 =
          .ok (ViewStorageContext.newUnsafe KeyValueStore.for_services [] (), rt2, env2) :=
  fun _P _rt _env => ⟨rfl, rfl, fun _P2 _rt2 _env2 => rfl⟩

/-- The runtime component of a facade result, when the call returned. -/
def resultRuntime {P α : Type} : FacadeResult P α → Option (ServiceRuntime P)
  | .ok (_, rt, _) => some rt
  | .error _ => none

/-- A facade result with the runtime component erased: what the call did to
the world and what it returned, independently of the cache state. -/
def resultSansRuntime {P α : Type} :
    FacadeResult P α → Except (String × HostEnv) (α × HostEnv)
  | .ok (v, _, env) => .ok (v, env)
  | .error e => .error e

/-- C9: every non-cacheable facade operation leaves all eight Memoizing
Cells unchanged and never consults them.  For each operation: whatever
runtime the call returns is the input runtime unchanged (no cell populated
or overwritten), and the returned value, host environment and any error are
the same for every runtime (no cell read). -/
theorem claim_c9_non_cacheable_ops_frame :
    ∀ (P : Type) (rt : ServiceRuntime P) (env : HostEnv),
      (∀ owner : Nat,
        resultRuntime (ServiceRuntime.owner_balance owner rt env) =
          (resultRuntime (ServiceRuntime.owner_balance owner rt env)).map (fun _ => rt) ∧
        ∀ rt2 : ServiceRuntime P,
          resultSansRuntime (ServiceRuntime.owner_balance owner rt env) =
            resultSansRuntime (ServiceRuntime.owner_balance owner rt2 env)) ∧
      (∀ request : Bytes,
        resultRuntime (ServiceRuntime.http_request request rt env) =
          (resultRuntime (ServiceRuntime.http_request request rt env)).map (fun _ => rt) ∧
        ∀ rt2 : ServiceRuntime P,
          resultSansRuntime (ServiceRuntime.http_request request rt env) =
            resultSansRuntime (ServiceRuntime.http_request request rt2 env)) ∧
      (∀ hash : Nat,
        resultRuntime (ServiceRuntime.read_data_blob hash rt env) =
          (resultRuntime (ServiceRuntime.read_data_blob hash rt env)).map (fun _ => rt) ∧
        ∀ rt2 : ServiceRuntime P,
          resultSansRuntime (ServiceRuntime.read_data_blob hash rt env) =
            resultSansRuntime (ServiceRuntime.read_data_blob hash rt2 env)) ∧
      (∀ hash : Nat,
        resultRuntime (ServiceRuntime.assert_data_blob_exists hash rt env) =
          (resultRuntime (ServiceRuntime.assert_data_blob_exists hash rt env)).map
            (fun _ => rt) ∧
        ∀ rt2 : ServiceRuntime P,
          resultSansRuntime (ServiceRuntime.assert_data_blob_exists hash rt env) =
            resultSansRuntime (ServiceRuntime.assert_data_blob_exists hash rt2 env)) ∧
      (∀ operation : Bytes,
        resultRuntime (ServiceRuntime.schedule_raw_operation operation rt env) =
          (resultRuntime (ServiceRuntime.schedule_raw_operation operation rt env)).map
            (fun _ => rt) ∧
        ∀ rt2 : ServiceRuntime P,
          resultSansRuntime (ServiceRuntime.schedule_raw_operation operation rt env) =
            resultSansRuntime (ServiceRuntime.schedule_raw_operation operation rt2 env)) ∧
      (∀ (Op : Type) (ser : Op → Option Bytes) (op : Op),
        resultRuntime (ServiceRuntime.schedule_operation ser op rt env) =
          (resultRuntime (ServiceRuntime.schedule_operation ser op rt env)).map
            (fun _ => rt) ∧
        ∀ rt2 : ServiceRuntime P,
          resultSansRuntime (ServiceRuntime.schedule_operation ser op rt env) =
            resultSansRuntime (ServiceRuntime.schedule_operation ser op rt2 env)) ∧
      (∀ (Q R : Type) (serQuery : Q → Option Bytes) (deserResponse : Bytes → Option R)
        (application : Nat) (query : Q),
        resultRuntime
            (ServiceRuntime.query_application serQuery deserResponse application query
              rt env) =
          (resultRuntime
            (ServiceRuntime.query_application serQuery deserResponse application query
              rt env)).map (fun _ => rt) ∧
        ∀ rt2 : ServiceRuntime P,
          resultSansRuntime
              (ServiceRuntime.query_application serQuery deserResponse application query
                rt env) =
            resultSansRuntime
              (ServiceRuntime.query_application serQuery deserResponse application query
                rt2 env)) := by
  intro P rt env
  refine ⟨?_, ?_, ?_, ?_, ?_, ?_, ?_⟩
  · exact fun owner => ⟨rfl, fun rt2 => rfl⟩
  · exact fun request => ⟨rfl, fun rt2 => rfl⟩
  · exact fun hash => ⟨rfl, fun rt2 => rfl⟩
  · intro hash
    constructor
    · cases h : env.host.dataBlobExists hash <;>
        simp [ServiceRuntime.assert_data_blob_exists, base_wit.assert_data_blob_exists,
          resultRuntime, h]
    · intro rt2
      cases h : env.host.dataBlobExists hash <;>
        simp [ServiceRuntime.assert_data_blob_exists, base_wit.assert_data_blob_exists,
          resultSansRuntime, h]
  · exact fun operation => ⟨rfl, fun rt2 => rfl⟩
  · intro Op ser op
    constructor
    · cases h : ser op <;>
        simp [ServiceRuntime.schedule_operation, service_wit.schedule_operation,
          resultRuntime, h]
    · intro rt2
      cases h : ser op <;>
        simp [ServiceRuntime.schedule_operation, service_wit.schedule_operation,
          resultSansRuntime, h]
  · intro Q R serQuery deserResponse application query
    constructor
    · cases hq : serQuery query with
      | none => simp [ServiceRuntime.query_application, resultRuntime, hq]
      | some qb =>
        cases hr : deserResponse (env.host.queryResponse application qb) <;>
          simp [ServiceRuntime.query_application, service_wit.try_query_application,
            resultRuntime, hq, hr]
    · intro rt2
      cases hq : serQuery query with
      | none => simp [ServiceRuntime.query_application, resultSansRuntime, hq]
      | some qb =>
        cases hr : deserResponse (env.host.queryResponse application qb) <;>
          simp [ServiceRuntime.query_application, service_wit.try_query_application,
            resultSansRuntime, hq, hr]

/-- C10: encoding failures are atomic with respect to the host.  When the
operation cannot be serialized, `schedule_operation` aborts carrying the host
environment exactly as it was before the call — the operation queue and the
trace are unchanged, so no bytes were forwarded.  When the query cannot be
serialized, `query_application` aborts the same way — no `tryQueryApplication`
entry is in the trace, so the target application was never invoked. -/
theorem claim_c10_encode_failure_atomic :
    ∀ (P : Type) (rt : ServiceRuntime P) (env : HostEnv),
      (∀ (Op : Type) (ser : Op → Option Bytes) (op : Op),
        ser op = none →
        ServiceRuntime.schedule_operation ser op rt env =
          .error ("Failed to serialize application operation", env)) ∧
      (∀ (Q R : Type) (serQuery : Q → Option Bytes) (deserResponse : Bytes → Option R)
        (application : Nat) (query : Q),
        serQuery query = none →
        ServiceRuntime.query_application serQuery deserResponse application query rt env =
          .error ("Failed to serialize query to another application", env)) := by
  intro P rt env
  constructor
  · intro Op ser op h
    simp [ServiceRuntime.schedule_operation, h]
  · intro Q R serQuery deserResponse application query h
    simp [ServiceRuntime.query_application, h]

/-- Witness for C10: concretely failing serializers abort both calls with the
input environment intact. -/
theorem claim_c10_encode_failure_atomic_witness :
    (fun _ : Nat => (none : Option Bytes)) 1 = none ∧
    ServiceRuntime.schedule_operation (fun _ : Nat => (none : Option Bytes)) 1
        (ServiceRuntime.new Nat) env0 =
      .error ("Failed to serialize application operation", env0) ∧
    ServiceRuntime.query_application (fun _ : Nat => (none : Option Bytes)) deser0 5 1
        (ServiceRuntime.new Nat) env0 =
      .error ("Failed to serialize query to another application", env0) :=
  ⟨rfl,
    (claim_c10_encode_failure_atomic Nat (ServiceRuntime.new Nat) env0).1 Nat
      (fun _ => none) 1 rfl,
    (claim_c10_encode_failure_atomic Nat (ServiceRuntime.new Nat) env0).2 Nat Nat
      (fun _ => none) deser0 5 1 rfl⟩
